import Mathlib

/-!
# Shallow embedding of the cca-backend submission service (src/index.js)

The repository is a single-file Express backend.  The core is the
`POST /api/submit-entry` pipeline:

  multer media-type filter  →  empty-body guard  →  required-field check
  →  S3 upload of the attachments (`uploadMultipleFilesToS3`)
  →  one parameterized `INSERT` into `submissions` (`pool.promise().execute`)

External effects (S3 `PutObject`, the database insert) are driven by an
`Oracle` supplying their outcomes, and every effectful call the handler makes
is recorded in an event trace, so that claims about "the uploader is never
invoked" or "the insert is executed exactly once" are statements about the
trace of a run.
-/

namespace CcaBackend

/-- A JavaScript value as it flows through the handler: form-field values are
strings, an absent field destructures to `undefined`, and `visual_links` is
initialised to `null` (src/index.js line 272). -/
inductive JsVal where
  | undefined
  | null
  | str (s : String)
deriving DecidableEq, Repr

/-- JS truthiness as used in `!full_name || !email_address`
(src/index.js line 265): `undefined` and `null` are falsy, a string is falsy
exactly when it is empty. -/
def JsVal.truthy : JsVal → Bool
  | .undefined => false
  | .null  => false
  | .str s => s ≠ ""

/-- One uploaded file as multer presents it to the handler: we keep the
fields the pipeline reads (`originalname`, `mimetype`). -/
structure UploadedFile where
  originalname : String
  mimetype : String
deriving DecidableEq, Repr

/-- The media-type allow-list of the multer `fileFilter`
(src/index.js lines 73–94). -/
def allowedMimes : List String :=
  [ "application/pdf",
    "application/msword",
    "application/vnd.openxmlformats-officedocument.wordprocessingml.document",
    "image/jpeg", "image/jpg", "image/png", "image/tiff", "image/tif",
    "video/mp4", "video/quicktime", "video/x-msvideo",
    "audio/mpeg", "audio/wav", "audio/wave", "audio/x-wav" ]

/-- The multer `fileFilter` accepts a file iff its declared mimetype is on
the allow-list (src/index.js lines 96–104). -/
def fileFilterAccepts (f : UploadedFile) : Bool :=
  allowedMimes.contains f.mimetype

/-- An incoming `POST /api/submit-entry` request after body parsing:
`body` is the parsed form-field mapping (`req.body`), `files` the multipart
file parts under `visual_files` (`req.files`), in attachment order. -/
structure Request where
  body : List (String × String)
  files : List UploadedFile
deriving DecidableEq, Repr

/-- Reading a field out of `req.body`: destructuring an absent key yields
`undefined`, a present key yields its string value. -/
def bodyGet (body : List (String × String)) (k : String) : JsVal :=
  match body.lookup k with
  | some v => .str v
  | none => .undefined

/-- Environment configuration the handler reads:
`S3_BUCKET_NAME`, the optional `AWS_REGION`, and the optional `NODE_ENV`
operating-mode flag. -/
structure Env where
  s3Bucket : String
  awsRegion : Option String
  nodeEnv : Option String
deriving DecidableEq, Repr

/-- `process.env.AWS_REGION || "us-east-1"` as used when building the S3 URL
(src/index.js lines 123–125); an unset or empty variable falls back. -/
def Env.urlRegion (e : Env) : String :=
  match e.awsRegion with
  | some r => if r = "" then "us-east-1" else r
  | none => "us-east-1"

/-- Outcome of one S3 `PutObject` call. -/
inductive UploadOutcome where
  | success
  | failure (msg : String)
deriving DecidableEq, Repr

/-- Error object surfaced by a failed database call (`err.message`,
`err.code`, `err.sqlMessage`). -/
structure DbError where
  message : String
  code : Option String
  sqlMessage : Option String
deriving DecidableEq, Repr

/-- Outcome of the database insert: a generated `insertId` or an error. -/
inductive DbResult where
  | ok (insertId : Nat)
  | err (e : DbError)
deriving DecidableEq, Repr

/-- Outcomes of the external collaborators for one request:
`keyTag i` is the `` `${Date.now()}-${randomId}` `` disambiguator generated
for the i-th attachment (src/index.js lines 139–141), `upload i` the outcome
of its S3 `PutObject`, and `db` the outcome the store gives the insert when
the bind parameters are well-formed. -/
structure Oracle where
  keyTag : Nat → String
  upload : Nat → UploadOutcome
  db : DbResult

/-- A JSON value in a response body. -/
inductive JVal where
  | jnull
  | jstr (s : String)
  | jnum (n : Nat)
deriving DecidableEq, Repr

/-- An HTTP response: a JSON response built by the handler, or the page the
default Express error handler produces — src/index.js installs no custom
error-handling middleware, so an error passed to `next` (e.g. by multer's
`fileFilter`) reaches Express's final handler, which answers with status 500
for a plain `Error` carrying no `status`/`statusCode`. -/
inductive HttpResponse where
  | json (status : Nat) (fields : List (String × JVal))
  | expressDefaultError (status : Nat)
deriving DecidableEq, Repr

/-- One external effect of a run. -/
inductive Event where
  | uploaderCall (numFiles : Nat)
  | s3Put (key : String) (outcome : UploadOutcome)
  | dbExecute (query : String) (values : List JsVal) (result : DbResult)
deriving DecidableEq, Repr

def Event.isS3Put : Event → Bool
  | .s3Put _ _ => true
  | _ => false

def Event.isDbExecute : Event → Bool
  | .dbExecute _ _ _ => true
  | _ => false

/-- The db-insert calls of a trace, with the SQL text, bind values and
outcome of each. -/
def dbExecs (evs : List Event) : List (String × List JsVal × DbResult) :=
  evs.filterMap (fun ev => match ev with
    | .dbExecute q v r => some (q, v, r)
    | _ => none)

/-- Response-body message constants of src/index.js. -/
def noFormDataMsg : String :=
  "No form data received. Please ensure you're sending the form data correctly."

def missingFieldsMsg : String :=
  "Missing required fields: full_name and email_address are required."

def successMsg : String := "Entry successfully submitted!"

def dbErrorMsg : String := "Error saving the entry."

def processingErrorMsg : String := "Error processing submission."

def dbGenericError : String := "Database error occurred"

/-- The S3 object URL returned by `uploadToS3` on success
(src/index.js lines 123–125). -/
def s3Url (e : Env) (fileName : String) : String :=
  "https://" ++ e.s3Bucket ++ ".s3." ++ e.urlRegion ++ ".amazonaws.com/" ++ fileName

/-- The storage key generated for the i-th attachment
(src/index.js line 141): `` `ccapatrika/${timestamp}-${randomId}-${file.originalname}` ``,
where the time-and-random part is supplied by the oracle. -/
def fileKey (o : Oracle) (i : Nat) (f : UploadedFile) : String :=
  "ccapatrika/" ++ o.keyTag i ++ "-" ++ f.originalname

/-- The S3 `PutObject` attempts `uploadMultipleFilesToS3` fires, one per file
in input order, starting at index `i`: each attempt records its storage key
and the oracle-given outcome. -/
def uploadAttemptsFrom (o : Oracle) : Nat → List UploadedFile → List (String × UploadOutcome)
  | _, [] => []
  | i, f :: fs => (fileKey o i f, o.upload i) :: uploadAttemptsFrom o (i + 1) fs

def uploadAttempts (o : Oracle) (files : List UploadedFile) : List (String × UploadOutcome) :=
  uploadAttemptsFrom o 0 files

/-- `Promise.all` over the upload promises: it rejects with the error of a
failing upload (the first one, in our sequential model) and resolves only
when every upload succeeded. -/
def firstUploadFailure : List (String × UploadOutcome) → Option String
  | [] => none
  | (_, .failure m) :: _ => some m
  | (_, .success) :: rest => firstUploadFailure rest

/-- `uploadMultipleFilesToS3` (src/index.js lines 133–152): `null` for an
empty batch; otherwise fire one upload per file, await them as a unit, and
on success join the per-file URLs in input order with a comma.  A failing
upload makes the whole call throw (the error message is returned in the
`Except.error` case).  The returned trace records the call itself and every
`PutObject` fired. -/
def uploadMultipleFilesToS3 (e : Env) (o : Oracle) (files : List UploadedFile) :
    Except String (Option String) × List Event :=
  if files.isEmpty then
    (.ok none, [.uploaderCall 0])
  else
    let attempts := uploadAttempts o files
    let evs := Event.uploaderCall files.length :: attempts.map (fun p => Event.s3Put p.1 p.2)
    match firstUploadFailure attempts with
    | some m => (.error m, evs)
    | none => (.ok (some (String.intercalate "," (attempts.map (fun p => s3Url e p.1)))), evs)

/-- The reference URL of the i-th attachment, as `uploadToS3` returns it. -/
def refUrlsFrom (e : Env) (o : Oracle) : Nat → List UploadedFile → List String
  | _, [] => []
  | i, f :: fs => s3Url e (fileKey o i f) :: refUrlsFrom e o (i + 1) fs

/-- The per-attachment reference URLs of a request, in original attachment
order. -/
def refUrls (e : Env) (o : Oracle) (files : List UploadedFile) : List String :=
  refUrlsFrom e o 0 files

/-- The `visual_links` value the insert binds for a request whose upload
stage completed: the initial `null` with zero attachments, the comma-joined
URL string otherwise (src/index.js lines 272–279). -/
def submittedVisualLinks (e : Env) (o : Oracle) (files : List UploadedFile) : JsVal :=
  if files.isEmpty then .null
  else .str (String.intercalate "," (refUrls e o files))

/-- The 24 field names destructured from `req.body`
(src/index.js lines 237–262), in source order. -/
def destructuredFields : List String :=
  [ "full_name", "email_address", "contact_number", "submission_capacity",
    "team_members", "prize_cheque_name", "consent_declarations", "challenge",
    "insight", "strategic_idea", "strategy_execution", "expected_results",
    "entry_topic", "concept_strategy", "objective", "rationale",
    "measurement", "insight_description", "strategic_solution",
    "creative_plan", "communication_strategy", "result_impact",
    "result_scope", "why_outstanding" ]

/-- The constant SQL text of the insert (src/index.js lines 281–310): a
single statement over a fixed, ordered 25-column list, with one `?`
placeholder per column — the request data never enters this string. -/
def insertQuery : String :=
  "INSERT INTO submissions (full_name, email_address, contact_number, " ++
  "submission_capacity, team_members, prize_cheque_name, consent_declarations, " ++
  "challenge, insight, strategic_idea, strategy_execution, expected_results, " ++
  "entry_topic, concept_strategy, objective, rationale, measurement, " ++
  "insight_description, strategic_solution, creative_plan, " ++
  "communication_strategy, result_impact, result_scope, visual_links, " ++
  "why_outstanding) VALUES (?, ?, ?, ?, ?, ?, ?, ?, ?, ?, ?, ?, ?, ?, ?, ?, ?, ?, ?, ?, ?, ?, ?, ?, ?)"

/-- The bind-parameter list (src/index.js lines 312–338): the 24 destructured
body fields in order, with the computed `visual_links` inserted between
`result_scope` and `why_outstanding` (position 24 of 25, 0-based index 23). -/
def insertValues (body : List (String × String)) (visual_links : JsVal) : List JsVal :=
  [ bodyGet body "full_name",
    bodyGet body "email_address",
    bodyGet body "contact_number",
    bodyGet body "submission_capacity",
    bodyGet body "team_members",
    bodyGet body "prize_cheque_name",
    bodyGet body "consent_declarations",
    bodyGet body "challenge",
    bodyGet body "insight",
    bodyGet body "strategic_idea",
    bodyGet body "strategy_execution",
    bodyGet body "expected_results",
    bodyGet body "entry_topic",
    bodyGet body "concept_strategy",
    bodyGet body "objective",
    bodyGet body "rationale",
    bodyGet body "measurement",
    bodyGet body "insight_description",
    bodyGet body "strategic_solution",
    bodyGet body "creative_plan",
    bodyGet body "communication_strategy",
    bodyGet body "result_impact",
    bodyGet body "result_scope",
    visual_links,
    bodyGet body "why_outstanding" ]

/-- The error message mysql2 raises when a bind parameter is `undefined`. -/
def bindUndefinedMsg : String :=
  "Bind parameters must not contain undefined. To pass SQL NULL specify JS null"

/-- The store interface behind `pool.promise().execute(query, values)`
(src/index.js line 346).  The driver the code imports (`mysql2`) validates
the bind parameters of `execute` and rejects any `undefined` value with a
`TypeError` ("Bind parameters must not contain undefined. To pass SQL NULL
specify JS null") before anything reaches the database; `null` is passed
through as SQL NULL.  With well-formed parameters the outcome is the external
store's, supplied by the oracle. -/
def executeStore (o : Oracle) (values : List JsVal) : DbResult :=
  if values.any (fun v => v = JsVal.undefined) then
    .err { message := bindUndefinedMsg, code := none, sqlMessage := none }
  else
    o.db

/-- JSON serialisation of the `visual_links` value in the success body:
JS `null` becomes JSON null, a string becomes a JSON string.  (The value is
only ever `null` or a string at this point.) -/
def jsonOfVisualLinks : JsVal → JVal
  | .null => .jnull
  | .str s => .jstr s
  | .undefined => .jnull

/-- The `POST /api/submit-entry` pipeline (src/index.js lines 219–395),
including the `upload.array("visual_files")` middleware in front of the
handler.  Returns the HTTP response and the trace of external effects:

1. multer's `fileFilter` rejects any disallowed mimetype; the error reaches
   Express's default error handler (status 500) because no error middleware
   is installed, and the handler body never runs;
2. the empty-body guard (lines 229–235) answers 400;
3. the required-field check (lines 265–270) answers 400;
4. `visual_links` starts as `null` and is replaced by the joined URL string
   when files are present (lines 272–279); a thrown upload error is caught
   by the outer catch (lines 387–393), which answers 500 and always echoes
   `error.message`;
5. the insert runs once; on failure the inner catch (lines 354–386) answers
   500 with the diagnostic gated on `NODE_ENV === "development"`; on success
   the 200 body echoes `visual_links` and the generated id (lines 349–353). -/
def handleSubmitEntry (e : Env) (o : Oracle) (req : Request) :
    HttpResponse × List Event :=
  if ¬ req.files.all fileFilterAccepts then
    (.expressDefaultError 500, [])
  else if req.body.isEmpty then
    (.json 400 [("message", .jstr noFormDataMsg)], [])
  else if ¬ (bodyGet req.body "full_name").truthy ∨
          ¬ (bodyGet req.body "email_address").truthy then
    (.json 400 [("message", .jstr missingFieldsMsg)], [])
  else
    match (if req.files.isEmpty then (Except.ok none, ([] : List Event))
           else uploadMultipleFilesToS3 e o req.files) with
    | (.error m, evs) =>
        (.json 500 [("message", .jstr processingErrorMsg), ("error", .jstr m)], evs)
    | (.ok linksOpt, evs) =>
        let visual_links : JsVal := match linksOpt with
          | none => .null
          | some s => .str s
        let values := insertValues req.body visual_links
        let result := executeStore o values
        let evs := evs ++ [Event.dbExecute insertQuery values result]
        match result with
        | .ok insertId =>
            (.json 200 [("message", .jstr successMsg),
                        ("visual_links", jsonOfVisualLinks visual_links),
                        ("entry_id", .jnum insertId)], evs)
        | .err dbe =>
            (.json 500 [("message", .jstr dbErrorMsg),
                        ("error", .jstr (if e.nodeEnv = some "development"
                                         then dbe.message
                                         else dbGenericError))], evs)

/-! ## Startup environment validation (src/index.js lines 12–44) -/

/-- The environment variables the startup check requires
(src/index.js lines 13–21). -/
def requiredEnvVars : List String :=
  [ "AWS_ACCESS_KEY_ID", "AWS_SECRET_ACCESS_KEY", "S3_BUCKET_NAME",
    "DB_HOST", "DB_USER", "DB_PASS", "DB_NAME" ]

/-- `!process.env[varName]`: a variable counts as present only when set to a
non-empty string. -/
def envTruthy (env : List (String × String)) (k : String) : Bool :=
  match env.lookup k with
  | some v => v ≠ ""
  | none => false

/-- `requiredEnvVars.filter((varName) => !process.env[varName])`
(src/index.js line 23): the diagnostic list of missing variables, in
declaration order. -/
def missingVars (env : List (String × String)) : List String :=
  requiredEnvVars.filter (fun v => !(envTruthy env v))

/-- The process calls `process.exit(1)` before serving iff the missing-list
is non-empty (src/index.js lines 24–44). -/
def startupHalts (env : List (String × String)) : Bool :=
  !(missingVars env).isEmpty

/-! ## Concrete fixtures used by witnesses and counterexamples -/

/-- Fixture environment for concrete runs: bucket and region set, `NODE_ENV`
unset. -/
def wEnv : Env := { s3Bucket := "bucket", awsRegion := some "ap-south-1", nodeEnv := none }

/-- Fixture oracle: every upload succeeds and the store accepts the insert,
generating id 42. -/
def wOracle : Oracle :=
  { keyTag := fun i => "1700000000000-k" ++ toString i,
    upload := fun _ => .success,
    db := .ok 42 }

/-- Fixture body carrying all 24 destructured fields (optional ones empty). -/
def fullBody : List (String × String) :=
  [("full_name", "Jane Doe"), ("email_address", "jane@x.com"),
   ("contact_number", ""), ("submission_capacity", "Freelancer"),
   ("team_members", ""), ("prize_cheque_name", ""), ("consent_declarations", ""),
   ("challenge", ""), ("insight", ""), ("strategic_idea", ""),
   ("strategy_execution", ""), ("expected_results", ""), ("entry_topic", ""),
   ("concept_strategy", ""), ("objective", ""), ("rationale", ""),
   ("measurement", ""), ("insight_description", ""), ("strategic_solution", ""),
   ("creative_plan", ""), ("communication_strategy", ""), ("result_impact", ""),
   ("result_scope", ""), ("why_outstanding", "")]

/-- Two attachments of allowed media types. -/
def twoFiles : List UploadedFile :=
  [{ originalname := "a.png", mimetype := "image/png" },
   { originalname := "b.pdf", mimetype := "application/pdf" }]

/-- Fixture request: full field set plus the two allowed attachments. -/
def wReq1 : Request := { body := fullBody, files := twoFiles }

/-- Fixture oracle whose S3 uploads all fail. -/
def failOracle : Oracle :=
  { keyTag := fun i => "1700000000000-k" ++ toString i,
    upload := fun _ => .failure "S3 connection lost",
    db := .ok 42 }

/-- Fixture request: full field set, no attachments. -/
def wReq0 : Request := { body := fullBody, files := [] }

/-- Fixture body whose `full_name` is a single space; the remaining 23
fields are those of `fullBody`. -/
def wsBody : List (String × String) := ("full_name", " ") :: fullBody.tail

/-- Fixture request with the whitespace-only `full_name` and no files. -/
def wsReq : Request := { body := wsBody, files := [] }

/-- Fixture request carrying only the two required fields. -/
def minimalReq : Request :=
  { body := [("full_name", "Jane Doe"), ("email_address", "jane@x.com")], files := [] }

/-- Fixture production environment. -/
def prodEnv : Env :=
  { s3Bucket := "bucket", awsRegion := some "ap-south-1", nodeEnv := some "production" }

/-- Fixture oracle whose single upload fails with internal detail A. -/
def failOracleA : Oracle :=
  { keyTag := fun i => "1700000000000-k" ++ toString i,
    upload := fun _ => .failure "detail A", db := .ok 42 }

/-- Fixture oracle identical to `failOracleA` except for the internal error
message. -/
def failOracleB : Oracle :=
  { keyTag := fun i => "1700000000000-k" ++ toString i,
    upload := fun _ => .failure "detail B", db := .ok 42 }

/-- Fixture request with one allowed attachment. -/
def oneFileReq : Request :=
  { body := fullBody, files := [{ originalname := "a.png", mimetype := "image/png" }] }

/-- Fixture environment holding exactly the seven required variables. -/
def env9 : List (String × String) :=
  [("AWS_ACCESS_KEY_ID", "AK"), ("AWS_SECRET_ACCESS_KEY", "SK"),
   ("S3_BUCKET_NAME", "bkt"), ("DB_HOST", "localhost"), ("DB_USER", "root"),
   ("DB_PASS", "pw"), ("DB_NAME", "cca_responses")]

end CcaBackend

/-! ## Helper lemmas about the upload batch -/

namespace CcaBackend

theorem uploadAttemptsFrom_map_url (e : Env) (o : Oracle) (files : List UploadedFile) :
    ∀ i : Nat,
      (uploadAttemptsFrom o i files).map (fun p => s3Url e p.1) = refUrlsFrom e o i files := by
  induction files with
  | nil => intro i; rfl
  | cons f fs ih =>
      intro i
      simp only [uploadAttemptsFrom, refUrlsFrom, List.map_cons, ih (i + 1)]

theorem refUrlsFrom_length (e : Env) (o : Oracle) (files : List UploadedFile) :
    ∀ i : Nat, (refUrlsFrom e o i files).length = files.length := by
  induction files with
  | nil => intro i; rfl
  | cons f fs ih =>
      intro i
      simp only [refUrlsFrom, List.length_cons, ih (i + 1)]

theorem refUrlsFrom_getElem? (e : Env) (o : Oracle) (files : List UploadedFile) :
    ∀ (i j : Nat) (f : UploadedFile),
      files[j]? = some f →
      (refUrlsFrom e o i files)[j]? = some (s3Url e (fileKey o (i + j) f)) := by
  induction files with
  | nil => intro i j f h; simp at h
  | cons g fs ih =>
      intro i j f h
      cases j with
      | zero =>
          simp only [List.getElem?_cons_zero, Option.some.injEq] at h
          subst h
          simp [refUrlsFrom]
      | succ k =>
          simp only [List.getElem?_cons_succ] at h
          have := ih (i + 1) k f h
          rw [show i + (k + 1) = (i + 1) + k by omega]
          simpa only [refUrlsFrom, List.getElem?_cons_succ] using this

theorem firstUploadFailure_none (o : Oracle) (files : List UploadedFile) :
    ∀ i : Nat,
      (∀ j, j < files.length → o.upload (i + j) = .success) →
      firstUploadFailure (uploadAttemptsFrom o i files) = none := by
  induction files with
  | nil => intro i _; rfl
  | cons f fs ih =>
      intro i h
      have h0 : o.upload i = .success := by simpa using h 0 (by simp)
      have hrest := ih (i + 1)
        (fun j hj => by
          have := h (j + 1) (by simpa using hj)
          rwa [show i + (j + 1) = (i + 1) + j by omega] at this)
      simp only [uploadAttemptsFrom, h0, firstUploadFailure, hrest]

theorem firstUploadFailure_some (o : Oracle) (files : List UploadedFile) :
    ∀ i : Nat,
      (∃ j, j < files.length ∧ o.upload (i + j) ≠ .success) →
      ∃ m, firstUploadFailure (uploadAttemptsFrom o i files) = some m := by
  induction files with
  | nil =>
      intro i h
      obtain ⟨j, hj, _⟩ := h
      simp at hj
  | cons f fs ih =>
      intro i h
      cases hup : o.upload i with
      | failure m =>
          exact ⟨m, by simp only [uploadAttemptsFrom, hup, firstUploadFailure]⟩
      | success =>
          obtain ⟨j, hj, hne⟩ := h
          cases j with
          | zero => simp [hup] at hne
          | succ k =>
              have hk : o.upload ((i + 1) + k) ≠ .success := by
                rwa [show (i + 1) + k = i + (k + 1) by omega]
              obtain ⟨m, hm⟩ := ih (i + 1) ⟨k, by simp at hj; omega, hk⟩
              exact ⟨m, by simp only [uploadAttemptsFrom, hup, firstUploadFailure, hm]⟩

theorem dbExecs_append (a b : List Event) : dbExecs (a ++ b) = dbExecs a ++ dbExecs b := by
  simp [dbExecs]

theorem dbExecs_s3Events (n : Nat) (attempts : List (String × UploadOutcome)) :
    dbExecs (Event.uploaderCall n :: attempts.map (fun p => Event.s3Put p.1 p.2)) = [] := by
  induction attempts with
  | nil => rfl
  | cons p rest ih =>
      simp only [dbExecs, List.map_cons, List.filterMap_cons] at ih ⊢
      exact ih

end CcaBackend

namespace CcaBackend

/-- Shape of a full run on the happy upload path: when the media types pass
the filter, the body is non-empty, both required fields are truthy, at least
one file is attached and every upload succeeds, the handler fires the
uploader once, issues every `PutObject`, builds `visual_links` as the
comma-join of the per-attachment URLs and runs the insert exactly once with
the fixed query. -/
theorem handleSubmitEntry_uploads_ok
    (e : Env) (o : Oracle) (req : Request)
    (hmime : req.files.all fileFilterAccepts = true)
    (hbody : req.body ≠ [])
    (hfn : (bodyGet req.body "full_name").truthy = true)
    (hem : (bodyGet req.body "email_address").truthy = true)
    (hN : req.files ≠ [])
    (hnofail : firstUploadFailure (uploadAttempts o req.files) = none) :
    handleSubmitEntry e o req =
      (match executeStore o (insertValues req.body
               (.str (String.intercalate "," (refUrls e o req.files)))) with
       | .ok insertId =>
           HttpResponse.json 200
             [("message", .jstr successMsg),
              ("visual_links", .jstr (String.intercalate "," (refUrls e o req.files))),
              ("entry_id", .jnum insertId)]
       | .err dbe =>
           HttpResponse.json 500
             [("message", .jstr dbErrorMsg),
              ("error", .jstr (if e.nodeEnv = some "development"
                               then dbe.message else dbGenericError))],
       (Event.uploaderCall req.files.length ::
          (uploadAttempts o req.files).map (fun p => Event.s3Put p.1 p.2)) ++
         [Event.dbExecute insertQuery
            (insertValues req.body
              (.str (String.intercalate "," (refUrls e o req.files))))
            (executeStore o (insertValues req.body
              (.str (String.intercalate "," (refUrls e o req.files)))))]) := by
  have hmap : (uploadAttempts o req.files).map (fun p => s3Url e p.1) = refUrls e o req.files :=
    uploadAttemptsFrom_map_url e o req.files 0
  unfold handleSubmitEntry
  rw [if_neg (by simp [hmime])]
  rw [if_neg (by simp [List.isEmpty_iff, hbody])]
  rw [if_neg (by simp [hfn, hem])]
  rw [if_neg (by simp [List.isEmpty_iff, hN])]
  unfold uploadMultipleFilesToS3
  rw [if_neg (by simp [List.isEmpty_iff, hN])]
  simp only [hnofail, hmap, jsonOfVisualLinks]
  cases executeStore o (insertValues req.body
      (.str (String.intercalate "," (refUrls e o req.files)))) <;> rfl

end CcaBackend

namespace CcaBackend

/-- C1: For every `POST /api/submit-entry` request carrying N ≥ 1 attachments
of allowed media types (and passing the body and required-field guards that
precede the upload stage), if every upload succeeds then the `visual_links`
value built by the Uploader and handed to the insert is exactly the N
per-attachment reference URLs joined with a comma, in original attachment
order (`refUrls` has one URL per file, index-aligned), the database insert is
executed exactly once for the request, and on insert success the 200 body
echoes the same joined string. -/
theorem submit_entry_visual_links_joined_in_order
    (e : Env) (o : Oracle) (req : Request)
    (hmime : req.files.all fileFilterAccepts = true)
    (hbody : req.body ≠ [])
    (hfn : (bodyGet req.body "full_name").truthy = true)
    (hem : (bodyGet req.body "email_address").truthy = true)
    (hN : req.files ≠ [])
    (hup : ∀ j, j < req.files.length → o.upload j = .success) :
    dbExecs (handleSubmitEntry e o req).2 =
      [(insertQuery,
        insertValues req.body (.str (String.intercalate "," (refUrls e o req.files))),
        executeStore o (insertValues req.body
          (.str (String.intercalate "," (refUrls e o req.files)))))] ∧
    (refUrls e o req.files).length = req.files.length ∧
    (∀ j f, req.files[j]? = some f →
        (refUrls e o req.files)[j]? = some (s3Url e (fileKey o j f))) ∧
    (∀ id, executeStore o (insertValues req.body
          (.str (String.intercalate "," (refUrls e o req.files)))) = .ok id →
        (handleSubmitEntry e o req).1 =
          .json 200 [("message", .jstr successMsg),
                     ("visual_links", .jstr (String.intercalate "," (refUrls e o req.files))),
                     ("entry_id", .jnum id)]) := by
  rw [handleSubmitEntry_uploads_ok e o req hmime hbody hfn hem hN
        (firstUploadFailure_none o req.files 0 (by simpa using hup))]
  refine ⟨?_, refUrlsFrom_length e o req.files 0, ?_, ?_⟩
  · rw [show ((match executeStore o (insertValues req.body
        (.str (String.intercalate "," (refUrls e o req.files)))) with
       | DbResult.ok insertId =>
           HttpResponse.json 200
             [("message", .jstr successMsg),
              ("visual_links", .jstr (String.intercalate "," (refUrls e o req.files))),
              ("entry_id", .jnum insertId)]
       | DbResult.err dbe =>
           HttpResponse.json 500
             [("message", .jstr dbErrorMsg),
              ("error", .jstr (if e.nodeEnv = some "development"
                               then dbe.message else dbGenericError))],
       (Event.uploaderCall req.files.length ::
          (uploadAttempts o req.files).map (fun p => Event.s3Put p.1 p.2)) ++
         [Event.dbExecute insertQuery
            (insertValues req.body
              (.str (String.intercalate "," (refUrls e o req.files))))
            (executeStore o (insertValues req.body
              (.str (String.intercalate "," (refUrls e o req.files)))))]) : HttpResponse × List Event).2 =
      (Event.uploaderCall req.files.length ::
          (uploadAttempts o req.files).map (fun p => Event.s3Put p.1 p.2)) ++
         [Event.dbExecute insertQuery
            (insertValues req.body
              (.str (String.intercalate "," (refUrls e o req.files))))
            (executeStore o (insertValues req.body
              (.str (String.intercalate "," (refUrls e o req.files)))))]
      from rfl]
    rw [dbExecs_append, dbExecs_s3Events]
    rfl
  · intro j f hj
    simpa using refUrlsFrom_getElem? e o req.files 0 j f hj
  · intro id h
    simp only [h]

end CcaBackend

namespace CcaBackend

/-- Witness for C1 at a concrete request with two attachments. -/
theorem submit_entry_visual_links_joined_in_order_witness :
    (wReq1.files.all fileFilterAccepts = true ∧
     wReq1.body ≠ [] ∧
     (bodyGet wReq1.body "full_name").truthy = true ∧
     (bodyGet wReq1.body "email_address").truthy = true ∧
     wReq1.files ≠ [] ∧
     (∀ j, j < wReq1.files.length → wOracle.upload j = .success)) ∧
    (dbExecs (handleSubmitEntry wEnv wOracle wReq1).2 =
      [(insertQuery,
        insertValues wReq1.body (.str (String.intercalate "," (refUrls wEnv wOracle wReq1.files))),
        executeStore wOracle (insertValues wReq1.body
          (.str (String.intercalate "," (refUrls wEnv wOracle wReq1.files)))))] ∧
    (refUrls wEnv wOracle wReq1.files).length = wReq1.files.length ∧
    (∀ j f, wReq1.files[j]? = some f →
        (refUrls wEnv wOracle wReq1.files)[j]? = some (s3Url wEnv (fileKey wOracle j f))) ∧
    (∀ id, executeStore wOracle (insertValues wReq1.body
          (.str (String.intercalate "," (refUrls wEnv wOracle wReq1.files)))) = .ok id →
        (handleSubmitEntry wEnv wOracle wReq1).1 =
          .json 200 [("message", .jstr successMsg),
                     ("visual_links", .jstr (String.intercalate "," (refUrls wEnv wOracle wReq1.files))),
                     ("entry_id", .jnum id)])) :=
  ⟨⟨by decide, by decide, by decide, by decide, by decide, by decide⟩,
   submit_entry_visual_links_joined_in_order wEnv wOracle wReq1
     (by decide) (by decide) (by decide) (by decide) (by decide) (by decide)⟩

/-- The trace of one `uploadMultipleFilesToS3` call: the call marker followed
by one `PutObject` per file, whatever the outcomes. -/
theorem uploadMultipleFilesToS3_snd (e : Env) (o : Oracle) (files : List UploadedFile) :
    (uploadMultipleFilesToS3 e o files).2 =
      if files.isEmpty then [Event.uploaderCall 0]
      else Event.uploaderCall files.length ::
        (uploadAttempts o files).map (fun p => Event.s3Put p.1 p.2) := by
  unfold uploadMultipleFilesToS3
  split
  · simp_all
  · dsimp only
    cases firstUploadFailure (uploadAttempts o files) <;> rfl

/-- The uploader emits only uploader/S3 events, never a db insert. -/
theorem uploadMultipleFilesToS3_no_dbExecute (e : Env) (o : Oracle) (files : List UploadedFile) :
    ∀ ev ∈ (uploadMultipleFilesToS3 e o files).2, ev.isDbExecute = false := by
  rw [uploadMultipleFilesToS3_snd]
  split
  · intro ev hev
    simp at hev
    subst hev
    rfl
  · intro ev hev
    simp only [List.mem_cons] at hev
    rcases hev with rfl | hev
    · rfl
    · obtain ⟨p, _, rfl⟩ := List.mem_map.mp hev
      rfl

/-- Per-request ordering: every run's trace splits into a prefix without db
inserts followed by a suffix without S3 uploads — the insert is never issued
before the upload batch has completed. -/
theorem uploads_precede_inserts (e : Env) (o : Oracle) (req : Request) :
    ∃ pre post, (handleSubmitEntry e o req).2 = pre ++ post ∧
      (∀ ev ∈ pre, ev.isDbExecute = false) ∧
      (∀ ev ∈ post, ev.isS3Put = false) := by
  unfold handleSubmitEntry
  split
  · exact ⟨[], [], by simp⟩
  split
  · exact ⟨[], [], by simp⟩
  split
  · exact ⟨[], [], by simp⟩
  rcases hrun : (if req.files.isEmpty then (Except.ok none, ([] : List Event))
                 else uploadMultipleFilesToS3 e o req.files) with ⟨res, evs⟩
  have hevs : ∀ ev ∈ evs, ev.isDbExecute = false := by
    by_cases hf : req.files.isEmpty
    · rw [if_pos hf] at hrun
      cases hrun
      simp
    · rw [if_neg hf] at hrun
      intro ev hev
      exact uploadMultipleFilesToS3_no_dbExecute e o req.files ev (by rw [hrun]; exact hev)
  cases res with
  | error m => exact ⟨evs, [], by simp, hevs, by simp⟩
  | ok linksOpt =>
      clear hrun
      dsimp only
      cases linksOpt with
      | none =>
          cases hstore : executeStore o (insertValues req.body JsVal.null) with
          | ok id =>
              refine ⟨evs, [Event.dbExecute insertQuery (insertValues req.body JsVal.null) (.ok id)],
                      by simp [hstore], hevs, ?_⟩
              intro ev hev; simp at hev; subst hev; rfl
          | err dbe =>
              refine ⟨evs, [Event.dbExecute insertQuery (insertValues req.body JsVal.null) (.err dbe)],
                      by simp [hstore], hevs, ?_⟩
              intro ev hev; simp at hev; subst hev; rfl
      | some s =>
          cases hstore : executeStore o (insertValues req.body (JsVal.str s)) with
          | ok id =>
              refine ⟨evs, [Event.dbExecute insertQuery (insertValues req.body (JsVal.str s)) (.ok id)],
                      by simp [hstore], hevs, ?_⟩
              intro ev hev; simp at hev; subst hev; rfl
          | err dbe =>
              refine ⟨evs, [Event.dbExecute insertQuery (insertValues req.body (JsVal.str s)) (.err dbe)],
                      by simp [hstore], hevs, ?_⟩
              intro ev hev; simp at hev; subst hev; rfl

end CcaBackend

namespace CcaBackend

/-- Shape of a run whose upload batch fails: the thrown upload error reaches
the outer catch, the response is the 500 processing-error body carrying the
upload error message, and the trace holds the uploader call and its
`PutObject` attempts but no insert. -/
theorem handleSubmitEntry_upload_fails
    (e : Env) (o : Oracle) (req : Request)
    (hmime : req.files.all fileFilterAccepts = true)
    (hbody : req.body ≠ [])
    (hfn : (bodyGet req.body "full_name").truthy = true)
    (hem : (bodyGet req.body "email_address").truthy = true)
    (hN : req.files ≠ [])
    (m : String)
    (hfail : firstUploadFailure (uploadAttempts o req.files) = some m) :
    handleSubmitEntry e o req =
      (.json 500 [("message", .jstr processingErrorMsg), ("error", .jstr m)],
       Event.uploaderCall req.files.length ::
         (uploadAttempts o req.files).map (fun p => Event.s3Put p.1 p.2)) := by
  unfold handleSubmitEntry
  rw [if_neg (by simp [hmime])]
  rw [if_neg (by simp [List.isEmpty_iff, hbody])]
  rw [if_neg (by simp [hfn, hem])]
  rw [if_neg (by simp [List.isEmpty_iff, hN])]
  unfold uploadMultipleFilesToS3
  rw [if_neg (by simp [List.isEmpty_iff, hN])]
  simp only [hfail]

/-- C3: If any single attachment upload of a request fails, the whole batch
is treated as failed: the database insert is never executed for that request
and the response is a 500 server error (the outer-catch body).  Moreover, in
every run the insert is never issued before all of the request's uploads have
completed: each trace is a prefix without inserts followed by a suffix
without uploads. -/
theorem submit_entry_upload_failure_no_insert
    (e : Env) (o : Oracle) (req : Request)
    (hmime : req.files.all fileFilterAccepts = true)
    (hbody : req.body ≠ [])
    (hfn : (bodyGet req.body "full_name").truthy = true)
    (hem : (bodyGet req.body "email_address").truthy = true)
    (hN : req.files ≠ [])
    (hfail : ∃ j, j < req.files.length ∧ o.upload j ≠ .success) :
    (dbExecs (handleSubmitEntry e o req).2 = [] ∧
     ∃ m, (handleSubmitEntry e o req).1 =
       .json 500 [("message", .jstr processingErrorMsg), ("error", .jstr m)]) ∧
    (∀ (e' : Env) (o' : Oracle) (req' : Request), ∃ pre post,
       (handleSubmitEntry e' o' req').2 = pre ++ post ∧
       (∀ ev ∈ pre, ev.isDbExecute = false) ∧
       (∀ ev ∈ post, ev.isS3Put = false)) := by
  obtain ⟨m, hm⟩ := firstUploadFailure_some o req.files 0 (by simpa using hfail)
  rw [handleSubmitEntry_upload_fails e o req hmime hbody hfn hem hN m hm]
  exact ⟨⟨dbExecs_s3Events _ _, m, rfl⟩, fun e' o' req' => uploads_precede_inserts e' o' req'⟩

/-- Witness for C3 at a concrete two-attachment request with a failing
upload. -/
theorem submit_entry_upload_failure_no_insert_witness :
    (wReq1.files.all fileFilterAccepts = true ∧
     wReq1.body ≠ [] ∧
     (bodyGet wReq1.body "full_name").truthy = true ∧
     (bodyGet wReq1.body "email_address").truthy = true ∧
     wReq1.files ≠ [] ∧
     (∃ j, j < wReq1.files.length ∧ failOracle.upload j ≠ .success)) ∧
    ((dbExecs (handleSubmitEntry wEnv failOracle wReq1).2 = [] ∧
      ∃ m, (handleSubmitEntry wEnv failOracle wReq1).1 =
        .json 500 [("message", .jstr processingErrorMsg), ("error", .jstr m)]) ∧
     (∀ (e' : Env) (o' : Oracle) (req' : Request), ∃ pre post,
        (handleSubmitEntry e' o' req').2 = pre ++ post ∧
        (∀ ev ∈ pre, ev.isDbExecute = false) ∧
        (∀ ev ∈ post, ev.isS3Put = false))) :=
  ⟨⟨by decide, by decide, by decide, by decide, by decide, by decide⟩,
   submit_entry_upload_failure_no_insert wEnv failOracle wReq1
     (by decide) (by decide) (by decide) (by decide) (by decide) (by decide)⟩

/-- Shape of a run with zero attachments that passes the guards:
`visual_links` stays `null`, the uploader is never entered, and the single
insert carries `null` in the `visual_links` slot. -/
theorem handleSubmitEntry_no_files
    (e : Env) (o : Oracle) (req : Request)
    (hfiles : req.files = [])
    (hbody : req.body ≠ [])
    (hfn : (bodyGet req.body "full_name").truthy = true)
    (hem : (bodyGet req.body "email_address").truthy = true) :
    handleSubmitEntry e o req =
      (match executeStore o (insertValues req.body .null) with
       | .ok insertId =>
           HttpResponse.json 200
             [("message", .jstr successMsg),
              ("visual_links", .jnull),
              ("entry_id", .jnum insertId)]
       | .err dbe =>
           HttpResponse.json 500
             [("message", .jstr dbErrorMsg),
              ("error", .jstr (if e.nodeEnv = some "development"
                               then dbe.message else dbGenericError))],
       [Event.dbExecute insertQuery (insertValues req.body .null)
          (executeStore o (insertValues req.body .null))]) := by
  unfold handleSubmitEntry
  rw [if_neg (by simp [hfiles])]
  rw [if_neg (by simp [List.isEmpty_iff, hbody])]
  rw [if_neg (by simp [hfn, hem])]
  rw [if_pos (by simp [hfiles])]
  dsimp only [jsonOfVisualLinks]
  cases executeStore o (insertValues req.body .null) <;> rfl

/-- Shape of any run that reaches the insert stage — an accepted request
with zero attachments or with a fully successful upload batch: the single
insert binds `submittedVisualLinks` (null or the joined URL string), and the
response is the 200 echo or the 500 insert-error body gated on
`NODE_ENV === "development"`. -/
theorem handleSubmitEntry_insert_stage
    (e : Env) (o : Oracle) (req : Request)
    (hmime : req.files.all fileFilterAccepts = true)
    (hbody : req.body ≠ [])
    (hfn : (bodyGet req.body "full_name").truthy = true)
    (hem : (bodyGet req.body "email_address").truthy = true)
    (hnofail : req.files = [] ∨
               firstUploadFailure (uploadAttempts o req.files) = none) :
    handleSubmitEntry e o req =
      (match executeStore o (insertValues req.body
               (submittedVisualLinks e o req.files)) with
       | .ok insertId =>
           HttpResponse.json 200
             [("message", .jstr successMsg),
              ("visual_links", jsonOfVisualLinks (submittedVisualLinks e o req.files)),
              ("entry_id", .jnum insertId)]
       | .err dbe =>
           HttpResponse.json 500
             [("message", .jstr dbErrorMsg),
              ("error", .jstr (if e.nodeEnv = some "development"
                               then dbe.message else dbGenericError))],
       (if req.files.isEmpty then [] else
          Event.uploaderCall req.files.length ::
            (uploadAttempts o req.files).map (fun p => Event.s3Put p.1 p.2)) ++
         [Event.dbExecute insertQuery
            (insertValues req.body (submittedVisualLinks e o req.files))
            (executeStore o (insertValues req.body
              (submittedVisualLinks e o req.files)))]) := by
  by_cases hfiles : req.files = []
  · rw [handleSubmitEntry_no_files e o req hfiles hbody hfn hem, hfiles]
    rfl
  · have hff : firstUploadFailure (uploadAttempts o req.files) = none := by
      rcases hnofail with h | h
      · exact absurd h hfiles
      · exact h
    have hvl : submittedVisualLinks e o req.files =
        .str (String.intercalate "," (refUrls e o req.files)) := by
      unfold submittedVisualLinks
      rw [if_neg (by simp [List.isEmpty_iff, hfiles])]
    rw [handleSubmitEntry_uploads_ok e o req hmime hbody hfn hem hfiles hff, hvl,
        if_neg (by simp [List.isEmpty_iff, hfiles])]
    cases executeStore o (insertValues req.body
        (.str (String.intercalate "," (refUrls e o req.files)))) <;> rfl

/-- C5: For every request with zero attachments and valid required fields,
the Uploader is never invoked (no uploader call and no `PutObject` in the
trace), the `visual_links` value passed to the single insert is `null`, and
on a successful insert the response is 200 with
`{message: "Entry successfully submitted!", visual_links: null, entry_id: id}`. -/
theorem submit_entry_zero_attachments_null_links
    (e : Env) (o : Oracle) (req : Request)
    (hfiles : req.files = [])
    (hbody : req.body ≠ [])
    (hfn : (bodyGet req.body "full_name").truthy = true)
    (hem : (bodyGet req.body "email_address").truthy = true) :
    (∀ ev ∈ (handleSubmitEntry e o req).2,
        (∀ n, ev ≠ Event.uploaderCall n) ∧ ev.isS3Put = false) ∧
    dbExecs (handleSubmitEntry e o req).2 =
      [(insertQuery, insertValues req.body .null,
        executeStore o (insertValues req.body .null))] ∧
    (∀ id, executeStore o (insertValues req.body .null) = .ok id →
        (handleSubmitEntry e o req).1 =
          .json 200 [("message", .jstr successMsg),
                     ("visual_links", .jnull),
                     ("entry_id", .jnum id)]) := by
  rw [handleSubmitEntry_no_files e o req hfiles hbody hfn hem]
  refine ⟨?_, rfl, ?_⟩
  · intro ev hev
    simp at hev
    subst hev
    exact ⟨fun n h => Event.noConfusion h, rfl⟩
  · intro id h
    simp only [h]

/-- Witness for C5 at a concrete zero-attachment request whose insert
succeeds with id 42. -/
theorem submit_entry_zero_attachments_null_links_witness :
    (wReq0.files = [] ∧
     wReq0.body ≠ [] ∧
     (bodyGet wReq0.body "full_name").truthy = true ∧
     (bodyGet wReq0.body "email_address").truthy = true) ∧
    ((∀ ev ∈ (handleSubmitEntry wEnv wOracle wReq0).2,
        (∀ n, ev ≠ Event.uploaderCall n) ∧ ev.isS3Put = false) ∧
     dbExecs (handleSubmitEntry wEnv wOracle wReq0).2 =
       [(insertQuery, insertValues wReq0.body .null,
         executeStore wOracle (insertValues wReq0.body .null))] ∧
     (∀ id, executeStore wOracle (insertValues wReq0.body .null) = .ok id →
         (handleSubmitEntry wEnv wOracle wReq0).1 =
           .json 200 [("message", .jstr successMsg),
                      ("visual_links", .jnull),
                      ("entry_id", .jnum id)])) :=
  ⟨⟨by decide, by decide, by decide, by decide⟩,
   submit_entry_zero_attachments_null_links wEnv wOracle wReq0
     (by decide) (by decide) (by decide) (by decide)⟩

/-- C10: For every request that reaches the handler (all attachments pass
the media filter) with an empty parsed form body, the handler answers 400
with the distinct "No form data received" message — different from the
missing-required-fields message — with no upload and no insert in the trace
(the guard runs before validation, upload and insert). -/
theorem submit_entry_empty_body_guard
    (e : Env) (o : Oracle) (req : Request)
    (hmime : req.files.all fileFilterAccepts = true)
    (hbody : req.body = []) :
    handleSubmitEntry e o req = (.json 400 [("message", .jstr noFormDataMsg)], []) ∧
    noFormDataMsg ≠ missingFieldsMsg := by
  constructor
  · unfold handleSubmitEntry
    rw [if_neg (by simp [hmime]), if_pos (by simp [hbody])]
  · decide

/-- Witness for C10: empty body, no attachments. -/
theorem submit_entry_empty_body_guard_witness :
    (([] : List UploadedFile).all fileFilterAccepts = true ∧
     ({ body := [], files := [] } : Request).body = []) ∧
    (handleSubmitEntry wEnv wOracle { body := [], files := [] } =
       (.json 400 [("message", .jstr noFormDataMsg)], []) ∧
     noFormDataMsg ≠ missingFieldsMsg) :=
  ⟨⟨by decide, by decide⟩,
   submit_entry_empty_body_guard wEnv wOracle { body := [], files := [] }
     (by decide) (by decide)⟩

end CcaBackend

namespace CcaBackend

/-- C2 counterexample: a request whose parsed body is entirely empty is a
request in which `full_name` (and `email_address`) is missing, yet the 400
response carries the "No form data received" message — it does not identify
the missing required fields (the only message naming them is
`missingFieldsMsg`, produced by the later check). -/
theorem submit_entry_missing_fields_message_counterexample :
    (bodyGet ([] : List (String × String)) "full_name").truthy = false ∧
    (bodyGet ([] : List (String × String)) "email_address").truthy = false ∧
    handleSubmitEntry wEnv wOracle { body := [], files := [] } =
      (.json 400 [("message", .jstr noFormDataMsg)], []) ∧
    noFormDataMsg ≠ missingFieldsMsg :=
  ⟨by decide, by decide, by decide, by decide⟩

/-- C2 (amended): for every request that reaches the handler and whose
`full_name` or `email_address` is missing/empty, the response is a 400 and
neither an upload nor an insert is issued; the message identifies the
required fields when the parsed body is non-empty, while an entirely empty
body gets the distinct "No form data received" 400 instead. -/
theorem submit_entry_missing_required_fields
    (e : Env) (o : Oracle) (req : Request)
    (hmime : req.files.all fileFilterAccepts = true)
    (hmissing : (bodyGet req.body "full_name").truthy = false ∨
                (bodyGet req.body "email_address").truthy = false) :
    (handleSubmitEntry e o req).2 = [] ∧
    (req.body ≠ [] →
        handleSubmitEntry e o req =
          (.json 400 [("message", .jstr missingFieldsMsg)], [])) ∧
    (req.body = [] →
        handleSubmitEntry e o req =
          (.json 400 [("message", .jstr noFormDataMsg)], [])) := by
  by_cases hb : req.body = []
  · have hrun : handleSubmitEntry e o req =
        (.json 400 [("message", .jstr noFormDataMsg)], []) := by
      unfold handleSubmitEntry
      rw [if_neg (by simp [hmime]), if_pos (by simp [hb])]
    exact ⟨by rw [hrun], fun hne => absurd hb hne, fun _ => hrun⟩
  · have hrun : handleSubmitEntry e o req =
        (.json 400 [("message", .jstr missingFieldsMsg)], []) := by
      unfold handleSubmitEntry
      rw [if_neg (by simp [hmime]), if_neg (by simp [List.isEmpty_iff, hb])]
      rw [if_pos (by
        rcases hmissing with h | h
        · exact Or.inl (by simp [h])
        · exact Or.inr (by simp [h]))]
    exact ⟨by rw [hrun], fun _ => hrun, fun h => absurd h hb⟩

/-- Witness for the amended C2: `full_name` absent, body non-empty. -/
theorem submit_entry_missing_required_fields_witness :
    (([{ originalname := "a.png", mimetype := "image/png" }] :
        List UploadedFile).all fileFilterAccepts = true ∧
     ((bodyGet [("email_address", "jane@x.com")] "full_name").truthy = false ∨
      (bodyGet [("email_address", "jane@x.com")] "email_address").truthy = false)) ∧
    ((handleSubmitEntry wEnv wOracle
        { body := [("email_address", "jane@x.com")],
          files := [{ originalname := "a.png", mimetype := "image/png" }] }).2 = [] ∧
     ([("email_address", "jane@x.com")] : List (String × String)) ≠ [] ∧
     handleSubmitEntry wEnv wOracle
        { body := [("email_address", "jane@x.com")],
          files := [{ originalname := "a.png", mimetype := "image/png" }] } =
       (.json 400 [("message", .jstr missingFieldsMsg)], [])) :=
  ⟨⟨by decide, by decide⟩,
   by
    have h := submit_entry_missing_required_fields wEnv wOracle
      { body := [("email_address", "jane@x.com")],
        files := [{ originalname := "a.png", mimetype := "image/png" }] }
      (by decide) (by decide)
    exact ⟨h.1, by decide, h.2.1 (by decide)⟩⟩

/-- C4 (amended): for every request in which some attachment's declared
media type is off the allow-list, multer's `fileFilter` error aborts the
request before the handler body runs; no S3 upload and no insert appear in
the trace, and — because no error-handling middleware is installed — the
response is Express's default error page with server-error status 500, not a
client-error (4xx) status. -/
theorem submit_entry_disallowed_type_rejected
    (e : Env) (o : Oracle) (req : Request)
    (hbad : ∃ f ∈ req.files, fileFilterAccepts f = false) :
    handleSubmitEntry e o req = (.expressDefaultError 500, []) := by
  have hcond : ¬ req.files.all fileFilterAccepts = true := by
    obtain ⟨f, hf, hff⟩ := hbad
    intro hall
    rw [List.all_eq_true] at hall
    have := hall f hf
    rw [hff] at this
    exact Bool.false_ne_true this
  unfold handleSubmitEntry
  rw [if_pos hcond]

/-- Witness for the amended C4 at a concrete text/plain attachment. -/
theorem submit_entry_disallowed_type_rejected_witness :
    (∃ f ∈ ({ body := fullBody,
              files := [{ originalname := "a.txt", mimetype := "text/plain" }] } :
             Request).files, fileFilterAccepts f = false) ∧
    handleSubmitEntry wEnv wOracle
        { body := fullBody,
          files := [{ originalname := "a.txt", mimetype := "text/plain" }] } =
      (.expressDefaultError 500, []) :=
  ⟨⟨{ originalname := "a.txt", mimetype := "text/plain" }, by decide, by decide⟩,
   submit_entry_disallowed_type_rejected wEnv wOracle _
     ⟨{ originalname := "a.txt", mimetype := "text/plain" }, by decide, by decide⟩⟩

/-- C4 counterexample: a request with a `text/plain` attachment is answered
with status 500 (the default error handler), which is not a client-error
(4xx) status; no upload and no insert occur, as the claim says, but the
status class contradicts it. -/
theorem submit_entry_disallowed_type_counterexample :
    handleSubmitEntry wEnv wOracle
        { body := fullBody,
          files := [{ originalname := "a.txt", mimetype := "text/plain" }] } =
      (.expressDefaultError 500, []) ∧
    ¬ (400 ≤ 500 ∧ 500 ≤ 499) :=
  ⟨by decide, by decide⟩

end CcaBackend

namespace CcaBackend

/-- `!field` is true exactly when the field is absent or the empty string:
no trimming is involved. -/
theorem truthy_bodyGet_false_iff (body : List (String × String)) (k : String) :
    (bodyGet body k).truthy = false ↔
      (body.lookup k = none ∨ body.lookup k = some "") := by
  unfold bodyGet
  cases h : body.lookup k with
  | none => simp [JsVal.truthy]
  | some v => simp [JsVal.truthy]

/-- C6 counterexample: a `full_name` consisting only of whitespace trims to
the empty string, yet `!full_name` is false for any non-empty string, so the
request passes the required-field check and is inserted and answered 200 —
it is not rejected as missing a required field. -/
theorem validator_whitespace_accepted_counterexample :
    wsBody.lookup "full_name" = some " " ∧
    (" " : String) ≠ "" ∧
    " ".toList.all Char.isWhitespace = true ∧
    handleSubmitEntry wEnv wOracle wsReq =
      (.json 200 [("message", .jstr successMsg), ("visual_links", .jnull),
                  ("entry_id", .jnum 42)],
       [Event.dbExecute insertQuery (insertValues wsBody .null) (.ok 42)]) :=
  ⟨by decide, by decide, by decide, by set_option maxRecDepth 4000 in decide⟩

/-- C6 (amended): a request that reaches the handler with a non-empty body
is rejected with the missing-required-fields 400 iff `full_name` or
`email_address` is absent or exactly the empty string; values are not
trimmed, so whitespace-only values count as present and are accepted. -/
theorem validator_accepts_iff_untrimmed_nonempty
    (e : Env) (o : Oracle) (req : Request)
    (hmime : req.files.all fileFilterAccepts = true)
    (hbody : req.body ≠ []) :
    (handleSubmitEntry e o req).1 = .json 400 [("message", .jstr missingFieldsMsg)] ↔
      (req.body.lookup "full_name" = none ∨ req.body.lookup "full_name" = some "" ∨
       req.body.lookup "email_address" = none ∨ req.body.lookup "email_address" = some "") := by
  constructor
  · intro hresp
    by_contra hnot
    push_neg at hnot
    obtain ⟨h1, h2, h3, h4⟩ := hnot
    have hfn : (bodyGet req.body "full_name").truthy = true := by
      cases htr : (bodyGet req.body "full_name").truthy with
      | true => rfl
      | false =>
          rcases (truthy_bodyGet_false_iff _ _).mp htr with h | h
          · exact absurd h h1
          · exact absurd h h2
    have hem : (bodyGet req.body "email_address").truthy = true := by
      cases htr : (bodyGet req.body "email_address").truthy with
      | true => rfl
      | false =>
          rcases (truthy_bodyGet_false_iff _ _).mp htr with h | h
          · exact absurd h h3
          · exact absurd h h4
    by_cases hf : req.files = []
    · rw [handleSubmitEntry_no_files e o req hf hbody hfn hem] at hresp
      cases hE : executeStore o (insertValues req.body .null) with
      | ok id => rw [hE] at hresp; simp at hresp
      | err dbe => rw [hE] at hresp; simp at hresp
    · cases hff : firstUploadFailure (uploadAttempts o req.files) with
      | some m =>
          rw [handleSubmitEntry_upload_fails e o req hmime hbody hfn hem hf m hff] at hresp
          simp at hresp
      | none =>
          rw [handleSubmitEntry_uploads_ok e o req hmime hbody hfn hem hf hff] at hresp
          cases hE : executeStore o (insertValues req.body
              (.str (String.intercalate "," (refUrls e o req.files)))) with
          | ok id => rw [hE] at hresp; simp at hresp
          | err dbe => rw [hE] at hresp; simp at hresp
  · intro hdisj
    have hcond : ¬ (bodyGet req.body "full_name").truthy = true ∨
                 ¬ (bodyGet req.body "email_address").truthy = true := by
      rcases hdisj with h | h | h | h
      · exact Or.inl (by rw [Bool.not_eq_true, truthy_bodyGet_false_iff]; exact Or.inl h)
      · exact Or.inl (by rw [Bool.not_eq_true, truthy_bodyGet_false_iff]; exact Or.inr h)
      · exact Or.inr (by rw [Bool.not_eq_true, truthy_bodyGet_false_iff]; exact Or.inl h)
      · exact Or.inr (by rw [Bool.not_eq_true, truthy_bodyGet_false_iff]; exact Or.inr h)
    unfold handleSubmitEntry
    rw [if_neg (by simp [hmime]), if_neg (by simp [List.isEmpty_iff, hbody]), if_pos hcond]

/-- Witness for the amended C6 at the whitespace-only request. -/
theorem validator_accepts_iff_untrimmed_nonempty_witness :
    (wsReq.files.all fileFilterAccepts = true ∧ wsReq.body ≠ []) ∧
    ((handleSubmitEntry wEnv wOracle wsReq).1 =
        .json 400 [("message", .jstr missingFieldsMsg)] ↔
      (wsReq.body.lookup "full_name" = none ∨ wsReq.body.lookup "full_name" = some "" ∨
       wsReq.body.lookup "email_address" = none ∨
       wsReq.body.lookup "email_address" = some "")) :=
  ⟨⟨by decide, by decide⟩,
   validator_accepts_iff_untrimmed_nonempty wEnv wOracle wsReq (by decide) (by decide)⟩

end CcaBackend

namespace CcaBackend

/-- Destructuring an absent key yields `undefined`. -/
theorem bodyGet_eq_undef_iff (body : List (String × String)) (k : String) :
    bodyGet body k = .undefined ↔ body.lookup k = none := by
  unfold bodyGet
  cases h : body.lookup k <;> simp

/-- `dbExecs` membership mirrors trace membership of insert events. -/
theorem mem_dbExecs_iff (evs : List Event) (q : String) (v : List JsVal) (r : DbResult) :
    (q, v, r) ∈ dbExecs evs ↔ Event.dbExecute q v r ∈ evs := by
  induction evs with
  | nil => simp [dbExecs]
  | cons ev rest ih =>
      cases ev <;> simp [dbExecs, List.filterMap_cons] at ih ⊢ <;> simp [ih]

/-- Every insert event any run emits carries the constant parameterized
query, and its bind vector is `insertValues` over the request body with a
`visual_links` slot that is `null` or a string — request data reaches the
store only through the bind parameters. -/
theorem handleSubmitEntry_insert_shape (e : Env) (o : Oracle) (req : Request) :
    ∀ q v r, Event.dbExecute q v r ∈ (handleSubmitEntry e o req).2 →
      q = insertQuery ∧ ∃ vl, v = insertValues req.body vl ∧
        (vl = .null ∨ ∃ s, vl = .str s) := by
  unfold handleSubmitEntry
  split
  · intro q v r h; simp at h
  split
  · intro q v r h; simp at h
  split
  · intro q v r h; simp at h
  rcases hrun : (if req.files.isEmpty then (Except.ok none, ([] : List Event))
                 else uploadMultipleFilesToS3 e o req.files) with ⟨res, evs⟩
  have hevs : ∀ ev ∈ evs, ev.isDbExecute = false := by
    by_cases hf : req.files.isEmpty
    · rw [if_pos hf] at hrun
      cases hrun
      simp
    · rw [if_neg hf] at hrun
      intro ev hev
      exact uploadMultipleFilesToS3_no_dbExecute e o req.files ev (by rw [hrun]; exact hev)
  clear hrun
  cases res with
  | error m =>
      intro q v r h
      have := hevs _ h
      simp [Event.isDbExecute] at this
  | ok linksOpt =>
      dsimp only
      cases linksOpt with
      | none =>
          cases hstore : executeStore o (insertValues req.body JsVal.null) with
          | ok id =>
              intro q v r h
              simp only [List.mem_append, List.mem_singleton] at h
              rcases h with h | h
              · have := hevs _ h; simp [Event.isDbExecute] at this
              · simp only [Event.dbExecute.injEq] at h
                exact ⟨h.1, JsVal.null, h.2.1, Or.inl rfl⟩
          | err dbe =>
              intro q v r h
              simp only [List.mem_append, List.mem_singleton] at h
              rcases h with h | h
              · have := hevs _ h; simp [Event.isDbExecute] at this
              · simp only [Event.dbExecute.injEq] at h
                exact ⟨h.1, JsVal.null, h.2.1, Or.inl rfl⟩
      | some s =>
          cases hstore : executeStore o (insertValues req.body (JsVal.str s)) with
          | ok id =>
              intro q v r h
              simp only [List.mem_append, List.mem_singleton] at h
              rcases h with h | h
              · have := hevs _ h; simp [Event.isDbExecute] at this
              · simp only [Event.dbExecute.injEq] at h
                exact ⟨h.1, JsVal.str s, h.2.1, Or.inr ⟨s, rfl⟩⟩
          | err dbe =>
              intro q v r h
              simp only [List.mem_append, List.mem_singleton] at h
              rcases h with h | h
              · have := hevs _ h; simp [Event.isDbExecute] at this
              · simp only [Event.dbExecute.injEq] at h
                exact ⟨h.1, JsVal.str s, h.2.1, Or.inr ⟨s, rfl⟩⟩

/-- With the 24 destructured fields present and a well-formed
`visual_links`, no bind parameter is `undefined`. -/
theorem insertValues_no_undef (body : List (String × String)) (vl : JsVal)
    (hall : ∀ k ∈ destructuredFields, (body.lookup k).isSome = true)
    (hvl : vl ≠ .undefined) :
    (insertValues body vl).any (fun v => v = JsVal.undefined) = false := by
  have hb : ∀ k ∈ destructuredFields, bodyGet body k ≠ .undefined := by
    intro k hk
    rw [ne_eq, bodyGet_eq_undef_iff]
    intro hnone
    have := hall k hk
    rw [hnone] at this
    simp at this
  simp only [insertValues, List.any_cons, List.any_nil, Bool.or_eq_false_iff,
             decide_eq_false_iff_not, and_true]
  exact ⟨hb _ (by decide), hb _ (by decide), hb _ (by decide), hb _ (by decide),
         hb _ (by decide), hb _ (by decide), hb _ (by decide), hb _ (by decide),
         hb _ (by decide), hb _ (by decide), hb _ (by decide), hb _ (by decide),
         hb _ (by decide), hb _ (by decide), hb _ (by decide), hb _ (by decide),
         hb _ (by decide), hb _ (by decide), hb _ (by decide), hb _ (by decide),
         hb _ (by decide), hb _ (by decide), hb _ (by decide), hvl,
         hb _ (by decide)⟩

/-- With all fields present the call reaches the external store. -/
theorem executeStore_all_present (o : Oracle) (body : List (String × String)) (vl : JsVal)
    (hall : ∀ k ∈ destructuredFields, (body.lookup k).isSome = true)
    (hvl : vl ≠ .undefined) :
    executeStore o (insertValues body vl) = o.db := by
  unfold executeStore
  rw [insertValues_no_undef body vl hall hvl]
  simp

/-- A single absent destructured field makes the driver reject the insert
before it reaches the database. -/
theorem executeStore_missing_field (o : Oracle) (body : List (String × String))
    (vl : JsVal) (k : String)
    (hk : k ∈ destructuredFields) (hnone : body.lookup k = none) :
    executeStore o (insertValues body vl) =
      .err { message := bindUndefinedMsg, code := none, sqlMessage := none } := by
  have hu : bodyGet body k = .undefined := (bodyGet_eq_undef_iff body k).mpr hnone
  have hany : (insertValues body vl).any (fun v => v = JsVal.undefined) = true := by
    rw [List.any_eq_true]
    refine ⟨bodyGet body k, ?_, by simp [hu]⟩
    fin_cases hk <;> simp [insertValues]
  unfold executeStore
  rw [if_pos hany]

end CcaBackend

namespace CcaBackend

/-- C7 (amended): for every accepted request — zero attachments (binding
`null`) or a successful upload batch (binding the joined URL string) — the
Writer issues exactly one insert, whose SQL text is the constant
`insertQuery` over the fixed, ordered 25-column list; in every run of the
handler, any insert event carries that constant query and a bind vector
built by `insertValues`, so request data is passed only as parameters,
never concatenated into the statement.  However, an optional field absent
from the request body is bound as `undefined`, not written as null/empty:
the mysql2 `execute` store rejects any `undefined` bind parameter, so such
an insert fails; only when all 24 destructured fields are present does the
call reach the external store. -/
theorem writer_single_parameterized_insert
    (e : Env) (o : Oracle) (req : Request)
    (hmime : req.files.all fileFilterAccepts = true)
    (hbody : req.body ≠ [])
    (hfn : (bodyGet req.body "full_name").truthy = true)
    (hem : (bodyGet req.body "email_address").truthy = true)
    (hnofail : req.files = [] ∨
               firstUploadFailure (uploadAttempts o req.files) = none) :
    dbExecs (handleSubmitEntry e o req).2 =
      [(insertQuery, insertValues req.body (submittedVisualLinks e o req.files),
        executeStore o (insertValues req.body (submittedVisualLinks e o req.files)))] ∧
    (∀ (e' : Env) (o' : Oracle) (req' : Request) q v r,
        (q, v, r) ∈ dbExecs (handleSubmitEntry e' o' req').2 →
          q = insertQuery ∧ ∃ vl, v = insertValues req'.body vl ∧
            (vl = .null ∨ ∃ s, vl = .str s)) ∧
    ((∀ k ∈ destructuredFields, (req.body.lookup k).isSome = true) →
        executeStore o (insertValues req.body (submittedVisualLinks e o req.files)) =
          o.db) ∧
    (∀ k ∈ destructuredFields, req.body.lookup k = none →
        executeStore o (insertValues req.body (submittedVisualLinks e o req.files)) =
          .err { message := bindUndefinedMsg, code := none, sqlMessage := none }) := by
  have hvlne : submittedVisualLinks e o req.files ≠ .undefined := by
    unfold submittedVisualLinks
    split <;> simp
  refine ⟨?_, ?_, ?_, ?_⟩
  · rw [handleSubmitEntry_insert_stage e o req hmime hbody hfn hem hnofail]
    dsimp only
    rw [dbExecs_append]
    by_cases hfiles : req.files.isEmpty
    · rw [if_pos hfiles]
      rfl
    · rw [if_neg hfiles, dbExecs_s3Events]
      rfl
  · intro e' o' req' q v r hmem
    exact handleSubmitEntry_insert_shape e' o' req' q v r ((mem_dbExecs_iff _ _ _ _).mp hmem)
  · intro hall
    exact executeStore_all_present o req.body _ hall hvlne
  · intro k hk hnone
    exact executeStore_missing_field o req.body _ k hk hnone

/-- Witness for the amended C7 at the full-body request with two allowed
attachments whose uploads succeed. -/
theorem writer_single_parameterized_insert_witness :
    (wReq1.files.all fileFilterAccepts = true ∧
     wReq1.body ≠ [] ∧
     (bodyGet wReq1.body "full_name").truthy = true ∧
     (bodyGet wReq1.body "email_address").truthy = true ∧
     (wReq1.files = [] ∨
      firstUploadFailure (uploadAttempts wOracle wReq1.files) = none)) ∧
    (dbExecs (handleSubmitEntry wEnv wOracle wReq1).2 =
       [(insertQuery, insertValues wReq1.body (submittedVisualLinks wEnv wOracle wReq1.files),
         executeStore wOracle
           (insertValues wReq1.body (submittedVisualLinks wEnv wOracle wReq1.files)))] ∧
     (∀ (e' : Env) (o' : Oracle) (req' : Request) q v r,
         (q, v, r) ∈ dbExecs (handleSubmitEntry e' o' req').2 →
           q = insertQuery ∧ ∃ vl, v = insertValues req'.body vl ∧
             (vl = .null ∨ ∃ s, vl = .str s)) ∧
     ((∀ k ∈ destructuredFields, (wReq1.body.lookup k).isSome = true) →
         executeStore wOracle
             (insertValues wReq1.body (submittedVisualLinks wEnv wOracle wReq1.files)) =
           wOracle.db) ∧
     (∀ k ∈ destructuredFields, wReq1.body.lookup k = none →
         executeStore wOracle
             (insertValues wReq1.body (submittedVisualLinks wEnv wOracle wReq1.files)) =
           .err { message := bindUndefinedMsg, code := none, sqlMessage := none })) :=
  ⟨⟨by decide, by decide, by decide, by decide, by decide⟩,
   writer_single_parameterized_insert wEnv wOracle wReq1
     (by decide) (by decide) (by decide) (by decide) (by decide)⟩

/-- C7 counterexample: with every optional field absent from the body, the
bind vector holds `undefined` (not null or empty), the store rejects the
insert although the database itself was healthy (`wOracle.db = .ok 42`), and
the response is the 500 insert-error body — no row with null/empty optional
columns is produced. -/
theorem writer_absent_fields_counterexample :
    minimalReq.body.lookup "contact_number" = none ∧
    bodyGet minimalReq.body "contact_number" = .undefined ∧
    JsVal.undefined ≠ .null ∧
    JsVal.undefined ≠ .str "" ∧
    wOracle.db = .ok 42 ∧
    handleSubmitEntry wEnv wOracle minimalReq =
      (.json 500 [("message", .jstr dbErrorMsg), ("error", .jstr dbGenericError)],
       [Event.dbExecute insertQuery (insertValues minimalReq.body .null)
          (.err { message := bindUndefinedMsg, code := none, sqlMessage := none })]) :=
  ⟨by decide, by decide, by decide, by decide, by decide,
   by set_option maxRecDepth 4000 in decide⟩

end CcaBackend

namespace CcaBackend

/-- C8 counterexample: in production mode (`NODE_ENV=production`), an upload
failure is answered through the outer catch, whose body always embeds
`error.message`; two runs differing only in the internal error message
produce different production-mode response bodies, and the internal detail
is exposed. -/
theorem error_detail_leak_counterexample :
    prodEnv.nodeEnv = some "production" ∧
    (handleSubmitEntry prodEnv failOracleA oneFileReq).1 =
      .json 500 [("message", .jstr processingErrorMsg), ("error", .jstr "detail A")] ∧
    (handleSubmitEntry prodEnv failOracleB oneFileReq).1 =
      .json 500 [("message", .jstr processingErrorMsg), ("error", .jstr "detail B")] ∧
    (handleSubmitEntry prodEnv failOracleA oneFileReq).1 ≠
      (handleSubmitEntry prodEnv failOracleB oneFileReq).1 :=
  ⟨by decide, by decide, by decide, by decide⟩

/-- C8 (amended): the outer-catch (upload/processing) error body always
includes the underlying error message, whatever the operating mode —
production included; the insert-path error body — for any request reaching
the insert stage, with or without attachments — includes `err.message` iff
`NODE_ENV` equals exactly "development", and carries the generic
"Database error occurred" text in every other mode — including
non-production modes such as "test". -/
theorem error_detail_exposure
    (e : Env) (o : Oracle) (req : Request)
    (hmime : req.files.all fileFilterAccepts = true)
    (hbody : req.body ≠ [])
    (hfn : (bodyGet req.body "full_name").truthy = true)
    (hem : (bodyGet req.body "email_address").truthy = true)
    (hN : req.files ≠ [])
    (m : String)
    (hfail : firstUploadFailure (uploadAttempts o req.files) = some m) :
    (handleSubmitEntry e o req).1 =
      .json 500 [("message", .jstr processingErrorMsg), ("error", .jstr m)] ∧
    (∀ (e' : Env) (o' : Oracle) (req' : Request) (dbe : DbError),
        req'.files.all fileFilterAccepts = true →
        req'.body ≠ [] →
        (bodyGet req'.body "full_name").truthy = true →
        (bodyGet req'.body "email_address").truthy = true →
        (req'.files = [] ∨
         firstUploadFailure (uploadAttempts o' req'.files) = none) →
        executeStore o' (insertValues req'.body
            (submittedVisualLinks e' o' req'.files)) = .err dbe →
        (handleSubmitEntry e' o' req').1 =
          .json 500 [("message", .jstr dbErrorMsg),
                     ("error", .jstr (if e'.nodeEnv = some "development"
                                      then dbe.message else dbGenericError))]) := by
  constructor
  · rw [handleSubmitEntry_upload_fails e o req hmime hbody hfn hem hN m hfail]
  · intro e' o' req' dbe hmime' hb hfn' hem' hnofail' herr
    rw [handleSubmitEntry_insert_stage e' o' req' hmime' hb hfn' hem' hnofail', herr]

/-- Witness for the amended C8 at the production run with a failing upload. -/
theorem error_detail_exposure_witness :
    (oneFileReq.files.all fileFilterAccepts = true ∧
     oneFileReq.body ≠ [] ∧
     (bodyGet oneFileReq.body "full_name").truthy = true ∧
     (bodyGet oneFileReq.body "email_address").truthy = true ∧
     oneFileReq.files ≠ [] ∧
     firstUploadFailure (uploadAttempts failOracleA oneFileReq.files) = some "detail A") ∧
    ((handleSubmitEntry prodEnv failOracleA oneFileReq).1 =
       .json 500 [("message", .jstr processingErrorMsg), ("error", .jstr "detail A")] ∧
     (∀ (e' : Env) (o' : Oracle) (req' : Request) (dbe : DbError),
         req'.files.all fileFilterAccepts = true →
         req'.body ≠ [] →
         (bodyGet req'.body "full_name").truthy = true →
         (bodyGet req'.body "email_address").truthy = true →
         (req'.files = [] ∨
          firstUploadFailure (uploadAttempts o' req'.files) = none) →
         executeStore o' (insertValues req'.body
             (submittedVisualLinks e' o' req'.files)) = .err dbe →
         (handleSubmitEntry e' o' req').1 =
           .json 500 [("message", .jstr dbErrorMsg),
                      ("error", .jstr (if e'.nodeEnv = some "development"
                                       then dbe.message else dbGenericError))])) :=
  ⟨⟨by decide, by decide, by decide, by decide, by decide, by decide⟩,
   error_detail_exposure prodEnv failOracleA oneFileReq
     (by decide) (by decide) (by decide) (by decide) (by decide) "detail A" (by decide)⟩

/-- C9 counterexample: with `AWS_REGION`, `DB_PORT`, `PORT` and `NODE_ENV`
all absent from the environment, startup is satisfied — empty diagnostic
list, no halt — so those configuration-surface items are not validated as
present. -/
theorem startup_validation_counterexample :
    env9.lookup "AWS_REGION" = none ∧
    env9.lookup "DB_PORT" = none ∧
    env9.lookup "PORT" = none ∧
    env9.lookup "NODE_ENV" = none ∧
    missingVars env9 = [] ∧
    startupHalts env9 = false :=
  ⟨by decide, by decide, by decide, by decide, by decide, by decide⟩

/-- C9 (amended): startup validates exactly the seven variables of
`requiredEnvVars` — the storage credentials and bucket plus the database
host, user, password and schema name; region, database port, listening port
and operating-mode flag are not on the list (they default at their use
sites).  The process halts before serving iff one of the seven is unset or
empty, and the diagnostic names exactly the unsatisfied required
variables. -/
theorem startup_env_validation (env : List (String × String)) :
    (startupHalts env = true ↔ ∃ v ∈ requiredEnvVars, envTruthy env v = false) ∧
    (∀ v, v ∈ missingVars env ↔ (v ∈ requiredEnvVars ∧ envTruthy env v = false)) ∧
    "AWS_REGION" ∉ requiredEnvVars ∧ "DB_PORT" ∉ requiredEnvVars ∧
    "PORT" ∉ requiredEnvVars ∧ "NODE_ENV" ∉ requiredEnvVars := by
  refine ⟨?_, ?_, by decide, by decide, by decide, by decide⟩
  · unfold startupHalts missingVars
    constructor
    · intro h
      rw [Bool.not_eq_true'] at h
      have hne : requiredEnvVars.filter (fun v => !(envTruthy env v)) ≠ [] := by
        intro hnil
        rw [hnil] at h
        simp at h
      obtain ⟨v, hv⟩ := List.exists_mem_of_ne_nil _ hne
      have := List.mem_filter.mp hv
      exact ⟨v, this.1, by simpa using this.2⟩
    · rintro ⟨v, hv, hfalse⟩
      rw [Bool.not_eq_true']
      have hmem : v ∈ requiredEnvVars.filter (fun v => !(envTruthy env v)) :=
        List.mem_filter.mpr ⟨hv, by simp [hfalse]⟩
      cases hh : (requiredEnvVars.filter (fun v => !(envTruthy env v))).isEmpty with
      | false => rfl
      | true =>
          rw [List.isEmpty_iff] at hh
          rw [hh] at hmem
          simp at hmem
  · intro v
    rw [missingVars, List.mem_filter]
    simp

/-- Witness for C9: the amended characterisation applied to the concrete
seven-variable environment. -/
theorem startup_env_validation_witness :
    startupHalts env9 = true ↔ ∃ v ∈ requiredEnvVars, envTruthy env9 v = false :=
  (startup_env_validation env9).1

end CcaBackend
